import Mathlib

/-!
Verification of the D3R CELPP pipeline orchestrator.

Shallow embedding of `src/d3r/celpprunner.py` and `src/d3r/celpp/glide.py`.
Filesystem effects, logging and process spawning are abstracted away:
statuses derived from the filesystem, lock-file contents and per-stage task
behaviour are passed in as explicit parameters, and each embedded function
returns the value the Python function returns together with the observable
actions it performs.
-/

namespace D3R

/-! ### Task statuses

Modelled from the spec: `D3RTask` (module `d3r.celpp.task`, not in `src/`)
carries a status in {UNKNOWN, NOTFOUND, START, COMPLETE, ERROR}; UNKNOWN is
only the in-memory default, and `update_status_from_filesystem` resolves the
status to one of the other four. -/

inductive Status : Type
  | unknown
  | notfound
  | start
  | error
  | complete
  deriving DecidableEq, Repr

/-- Modelled from the spec: the status constants of `D3RTask` are the
human-readable names used in error messages. -/
def Status.str : Status → String
  | .unknown => "unknown"
  | .notfound => "notfound"
  | .start => "start"
  | .error => "error"
  | .complete => "complete"

/-- A status `update_status_from_filesystem` can produce: everything except
the in-memory-only default UNKNOWN (spec §3). -/
def Status.fsDerived : Status → Prop
  | .unknown => False
  | _ => True

instance : DecidablePred Status.fsDerived := fun s => by
  cases s <;> simp [Status.fsDerived] <;> infer_instance

/-! ### GlideTask.can_run (src/d3r/celpp/glide.py lines 23-61) -/

/-- Modelled from the spec: the name of the upstream `ProteinLigPrepTask`
(module `d3r.celpp.proteinligprep`, not in `src/`). -/
def proteinLigPrepName : String := "proteinligprep"

/-- Modelled from the spec (§6 directory layout `stage.<k>.<taskname>`):
`GlideTask` has stage number 4 and name `glide`, so `get_dir_name()` is
`stage.4.glide`. -/
def glideDirName : String := "stage.4.glide"

/-- Observable outcome of `GlideTask.can_run`: the returned boolean, the
`_can_run` flag it leaves behind, and the `_error` field it leaves behind. -/
structure CanRunResult where
  result : Bool
  canRunFlag : Bool
  errorMsg : Option String
  deriving DecidableEq, Repr

/-- The method `GlideTask.can_run`, as a function of the upstream
`ProteinLigPrepTask` status and this task's own status, both as derived from
the filesystem by `update_status_from_filesystem`.  Mirrors glide.py 23-61:
reset `_can_run`/`_error`, check the upstream is COMPLETE, then check own
status against COMPLETE and NOTFOUND. -/
def glideCanRun (upstreamStatus ownStatus : Status) : CanRunResult :=
  -- self._can_run = False; self._error = None
  if upstreamStatus ≠ Status.complete then
    { result := false, canRunFlag := false,
      errorMsg := some (proteinLigPrepName ++ " task has " ++
                        upstreamStatus.str ++ " status") }
  else if ownStatus = Status.complete then
    { result := false, canRunFlag := false, errorMsg := none }
  else if ownStatus ≠ Status.notfound then
    { result := false, canRunFlag := false,
      errorMsg := some (glideDirName ++ " already exists and " ++
                        "status is " ++ ownStatus.str) }
  else
    { result := true, canRunFlag := true, errorMsg := none }

/-! ### GlideTask.run (src/d3r/celpp/glide.py lines 63-104) -/

/-- What `GlideTask.run` does after the initial `super().run()` call:
nothing (the `_can_run` guard fired), record the `glide not set` error, or
invoke the external command executor with the assembled command line. -/
inductive RunAction : Type
  | skipped
  | errGlideNotSet
  | invokedExternal (cmdLine : String)
  deriving DecidableEq, Repr

/-- The method `GlideTask.run` as a function of the `_can_run` flag, the optional
`--glide` argument, and the two directories used to assemble the command
line.  Mirrors glide.py 63-104. -/
def glideRun (canRunFlag : Bool) (glideArg : Option String)
    (structureDir outDir : String) : RunAction :=
  if canRunFlag = false then
    RunAction.skipped
  else
    match glideArg with
    | none => RunAction.errGlideNotSet
    | some g =>
        RunAction.invokedExternal
          (g ++ " --structuredir " ++ structureDir ++ " --outdir " ++ outDir)

/-! ### _get_lock (src/d3r/celpprunner.py lines 23-60)

The `PIDLockFile` state is the optional PID recorded in the lock file
(`none` = no lock file); `i_am_locking()` holds when that PID is the current
process's PID, `is_locked()` when a lock file exists, and
`psutil.pid_exists` is the `pidExists` parameter. -/

/-- Outcome of `_get_lock`: the lock is acquired with the given PID recorded
in the lock file, or the `Exception("celpprunner with pid ... is running")`
contention error is raised. -/
inductive LockAcq : Type
  | acquired (recordedPid : Nat)
  | contention (msg : String)
  deriving DecidableEq, Repr

/-- The function `_get_lock(theargs, stage)` as a function of the current process PID,
OS process liveness, and the PID currently recorded in the lock file.
Mirrors celpprunner.py 23-60. -/
def getLock (currentPid : Nat) (pidExists : Nat → Bool)
    (lockPid : Option Nat) : LockAcq :=
  if lockPid = some currentPid then
    -- lock.i_am_locking(): break_lock(); acquire(); return lock
    LockAcq.acquired currentPid
  else
    match lockPid with
    | some p =>
        -- lock.is_locked(): check psutil.pid_exists(lock.read_pid())
        if pidExists p then
          LockAcq.contention ("celpprunner with pid " ++ toString p ++
                              " is running")
        else
          -- stale lock: break_lock(); acquire(); return lock
          LockAcq.acquired currentPid
    | none =>
        -- no lock file: break_lock(); acquire(); return lock
        LockAcq.acquired currentPid

/-! ### run_tasks (src/d3r/celpprunner.py lines 134-164) -/

/-- A task as `run_tasks` observes it: its name, whether `task.run()` raises
(with the exception message), and the error state `task.get_error()` reports
once `run()` has returned or raised. -/
structure MTask where
  name : String
  raises : Option String
  errAfter : Option String
  deriving DecidableEq, Repr

/-- The error state of a task after the `try/except` around `task.run()` in
`run_tasks`: if `run()` raised and the task recorded no error of its own,
`run_tasks` sets `Caught Exception running task: <message>`. -/
def MTask.finalError (t : MTask) : Option String :=
  match t.errAfter with
  | some e => some e
  | none =>
      match t.raises with
      | some m => some ("Caught Exception running task: " ++ m)
      | none => none

/-- The loop of `run_tasks` over a (non-null) task list: returns the exit
code together with the names of the tasks that were actually run, in order.
Every task reached is run; the first task whose error state is non-null
makes the loop return 1. -/
def runTasksGo : List MTask → Nat × List String
  | [] => (0, [])
  | t :: rest =>
      if (t.finalError).isSome then
        (1, [t.name])
      else
        ((runTasksGo rest).1, t.name :: (runTasksGo rest).2)

/-- The function `run_tasks(task_list)` (celpprunner.py 134-164), with `none` standing
for the Python `None` argument.  Returns the exit code and the names of the
tasks run. -/
def runTasks : Option (List MTask) → Nat × List String
  | none => (3, [])
  | some l =>
      if l.length = 0 then (2, [])
      else runTasksGo l

/-! ### run_stages (src/d3r/celpprunner.py lines 84-131) and main (247-371)

`run_stages` iterates over `theargs.stage.split(',')`.  Each iteration does
`try: lock = _get_lock(...); task_list = get_task_list_for_stage(...);
exit_code = run_tasks(task_list); if exit_code is not 0: return exit_code
finally: lock.release()`.  Because the assignment to `lock` is inside the
`try`, the `finally` clause runs `lock.release()` even when `_get_lock`
raised: on the first stage `lock` is unbound (NameError), and on a later
stage `lock` still refers to the previous stage's already-released lock
object, whose `release()` raises NotLocked; either exception replaces the
one `_get_lock` raised.  The model records every `lock.release()` call with
the stage whose lock object the variable holds at that moment. -/

/-- The comma split `theargs.stage.split(',')` performs, embedded as
structural recursion so that it evaluates by kernel reduction: split the
characters at every comma, producing empty pieces for adjacent commas,
exactly as the Python `str.split(',')` does. -/
def splitCommaAux : List Char → List Char → List String
  | [], acc => [String.mk acc.reverse]
  | c :: rest, acc =>
      if c = ',' then String.mk acc.reverse :: splitCommaAux rest []
      else splitCommaAux rest (c :: acc)

/-- The comma split applied to a whole string. -/
def splitComma (s : String) : List String := splitCommaAux s.data []

/-- The behaviour of the environment for one `run_stages` invocation: the
outcome of `_get_lock` and of `get_task_list_for_stage` for each stage
name (`Except.error` = the call raised with that message). -/
structure StageEnv where
  lockAcq : String → Except String Unit
  taskList : String → Except String (List MTask)

/-- Observable actions of `run_stages`: a stage lock successfully acquired,
a stage task list successfully built, a task of a stage run, and a
`lock.release()` call in the `finally` clause — `target` is the stage whose
lock object the `lock` variable holds, `none` when the variable was never
bound. -/
inductive REvent : Type
  | acquired (stage : String)
  | built (stage : String)
  | ran (stage : String) (taskName : String)
  | releaseCall (target : Option String)
  deriving DecidableEq, Repr

/-- The stage an event belongs to, if any. -/
def REvent.stageOf : REvent → Option String
  | .acquired s => some s
  | .built s => some s
  | .ran s _ => some s
  | .releaseCall t => t

/-- The exception raised by the `finally` clause's `lock.release()` when the
lock object is not currently held: NameError when `lock` is unbound,
NotLocked when it refers to an already-released lock. -/
def releaseExc : Option String → String
  | none => "NameError: name lock is not defined"
  | some s => "NotLocked: " ++ s ++ " lock already released"

/-- The per-stage loop of `run_stages` (celpprunner.py 113-131) over the
already-split stage list.  `lockVar` is the stage whose (released) lock
object the Python variable `lock` holds from a previous iteration.  Returns
`Except.error` when the iteration raises (the exception propagates to
`main`), `Except.ok code` when `run_stages` returns `code`, together with
the trace of observable actions. -/
def runStagesLoop (env : StageEnv) :
    List String → Option String → Except String Nat × List REvent
  | [], _ => (Except.ok 0, [])
  | s :: rest, lockVar =>
      match env.lockAcq s with
      | Except.error _e =>
          -- _get_lock raised; the finally clause still runs lock.release(),
          -- which itself raises and replaces the original exception
          (Except.error (releaseExc lockVar), [REvent.releaseCall lockVar])
      | Except.ok _ =>
          match env.taskList s with
          | Except.error e =>
              -- get_task_list_for_stage raised; finally releases this
              -- stage's lock, then the exception propagates
              (Except.error e,
               [REvent.acquired s, REvent.releaseCall (some s)])
          | Except.ok tl =>
              let r := runTasks (some tl)
              let evts := [REvent.acquired s, REvent.built s] ++
                          r.2.map (REvent.ran s) ++
                          [REvent.releaseCall (some s)]
              if r.1 ≠ 0 then
                -- non-zero exit code: release, then return exit_code
                (Except.ok r.1, evts)
              else
                let k := runStagesLoop env rest (some s)
                (k.1, evts ++ k.2)

/-- The function `run_stages(theargs)` (celpprunner.py 84-131): after the optional
`--createweekdir` handling (side effect only, not modelled), resolve
`theargs.latest_weekly`; when the resolver returns `None`, return 0 at
once; otherwise loop over the comma-split stage string. -/
def runStages (env : StageEnv) (latestWeekly : Option String)
    (stageCsv : String) : Except String Nat × List REvent :=
  match latestWeekly with
  | none => (Except.ok 0, [])
  | some _ => runStagesLoop env (splitComma stageCsv) none

/-- The process exit code of `main()` (celpprunner.py 356-371) as a function
of the outcome of `run_stages`: 2 when `run_stages` raised, otherwise 0 —
`main` calls `run_stages(theargs)` without using its return value, so a
non-zero code returned by `run_stages` never reaches `sys.exit`. -/
def mainExit (r : Except String Nat × List REvent) : Nat :=
  match r.1 with
  | Except.error _ => 2
  | Except.ok _ => 0

/-! ### get_task_list_for_stage (src/d3r/celpprunner.py lines 167-198) -/

/-- The tasks the factory can build, each bound to the resolved dataset
path (`theargs.latest_weekly`). -/
inductive StageTask : Type
  | compInchiDownload (path : String)
  | blastNFilter (path : String)
  | pdbPrep (path : String)
  deriving DecidableEq, Repr

/-- The factory `get_task_list_for_stage(theargs, stage_name)` (celpprunner.py
167-198), with `none` for the Python `None` stage name; `Except.error` is
the `NotImplementedError` message. -/
def getTaskListForStage (latestWeekly : String) :
    Option String → Except String (List StageTask)
  | none => Except.error "stage_name is None"
  | some s =>
      let l : List StageTask :=
        (if s = "import" then [StageTask.compInchiDownload latestWeekly]
         else []) ++
        (if s = "blast" then [StageTask.blastNFilter latestWeekly]
         else []) ++
        (if s = "pdbprep" then [StageTask.pdbPrep latestWeekly] else [])
      if l.length = 0 then
        Except.error ("uh oh no tasks for " ++ s ++ " stage")
      else
        Except.ok l

/-! ### Helper lemmas -/

/-- A run of tasks that all finish without error runs every task in order
and returns 0. -/
lemma runTasksGo_clean (l : List MTask) (h : ∀ s ∈ l, s.finalError = none) :
    runTasksGo l = (0, l.map MTask.name) := by
  induction l with
  | nil => rfl
  | cons a rest ih =>
      have ha : a.finalError = none := h a (by simp)
      have hrest := ih (fun s hs => h s (by simp [hs]))
      simp [runTasksGo, ha, hrest]

/-- The loop of `run_tasks` halts at the first erroring task with code 1. -/
lemma runTasksGo_halts (pre : List MTask) (t : MTask) (post : List MTask)
    (hpre : ∀ s ∈ pre, s.finalError = none) (ht : t.finalError ≠ none) :
    runTasksGo (pre ++ t :: post) = (1, (pre ++ [t]).map MTask.name) := by
  induction pre with
  | nil =>
      have : (t.finalError).isSome := Option.ne_none_iff_isSome.mp ht
      simp [runTasksGo, this]
  | cons a rest ih =>
      have ha : a.finalError = none := hpre a (by simp)
      have hrest := ih (fun s hs => hpre s (by simp [hs]))
      simp [runTasksGo, ha, hrest]

/-! ### Claim theorems -/

/-- Claim C1: `GlideTask.can_run` returns true exactly when the upstream
`ProteinLigPrepTask` status is COMPLETE and the glide task's own status is
NOTFOUND; an upstream that is not COMPLETE records an error naming the
upstream and its status; an own COMPLETE status returns false with no
error; an own START or ERROR status records an already-exists error naming
the status; and the `_can_run` flag is set exactly in the true case. -/
theorem glideCanRun_correct (up own : Status) :
    ((glideCanRun up own).result = true ↔
      (up = Status.complete ∧ own = Status.notfound))
  ∧ (up ≠ Status.complete →
      (glideCanRun up own).result = false ∧
      (glideCanRun up own).errorMsg =
        some (proteinLigPrepName ++ " task has " ++ up.str ++ " status"))
  ∧ (up = Status.complete → own = Status.complete →
      (glideCanRun up own).result = false ∧
      (glideCanRun up own).errorMsg = none)
  ∧ (up = Status.complete → (own = Status.start ∨ own = Status.error) →
      (glideCanRun up own).result = false ∧
      (glideCanRun up own).errorMsg =
        some (glideDirName ++ " already exists and status is " ++ own.str))
  ∧ ((glideCanRun up own).canRunFlag = true ↔
      (glideCanRun up own).result = true) := by
  cases up <;> cases own <;> exact (by decide)

/-- Witness for C1 at concrete statuses: an upstream in START blocks the
run with a recorded error, and with a COMPLETE upstream an own ERROR
status records the already-exists error. -/
theorem glideCanRun_correct_witness :
    ((glideCanRun Status.start Status.notfound).result = false ∧
     (glideCanRun Status.start Status.notfound).errorMsg =
       some (proteinLigPrepName ++ " task has " ++
             (Status.start).str ++ " status"))
  ∧ ((glideCanRun Status.complete Status.error).result = false ∧
     (glideCanRun Status.complete Status.error).errorMsg =
       some (glideDirName ++ " already exists and status is " ++
             (Status.error).str)) :=
  ⟨(glideCanRun_correct Status.start Status.notfound).2.1 (by decide),
   (glideCanRun_correct Status.complete Status.error).2.2.2.1 rfl
     (Or.inr rfl)⟩

/-- Claim C2: `_get_lock` reacquires and succeeds when the lock file
records the current PID (re-entrant); raises the contention error when the
lock file records a different, live PID; and breaks any stale lock and
acquires, recording the current PID, when no lock file exists or the
recorded PID is dead. -/
theorem getLock_correct (cur p : Nat) (alive : Nat → Bool) :
    (getLock cur alive (some cur) = LockAcq.acquired cur)
  ∧ (p ≠ cur → alive p = true →
      getLock cur alive (some p) =
        LockAcq.contention ("celpprunner with pid " ++ toString p ++
                            " is running"))
  ∧ (alive p = false → getLock cur alive (some p) = LockAcq.acquired cur)
  ∧ (getLock cur alive none = LockAcq.acquired cur) := by
  refine ⟨by simp [getLock], ?_, ?_, by simp [getLock]⟩
  · intro hne hal
    simp [getLock, hne, hal]
  · intro hal
    by_cases hpc : p = cur
    · subst hpc; simp [getLock]
    · simp [getLock, hpc, hal]

/-- Witness for C2: with current PID 5 and live PIDs exactly 5 and 7, the
four cases of `_get_lock` at concrete lock-file contents. -/
theorem getLock_correct_witness :
    (getLock 5 (fun q => q == 5 || q == 7) (some 5) = LockAcq.acquired 5)
  ∧ (getLock 5 (fun q => q == 5 || q == 7) (some 7) =
      LockAcq.contention ("celpprunner with pid " ++ toString 7 ++
                          " is running"))
  ∧ (getLock 5 (fun q => q == 5 || q == 7) (some 9) = LockAcq.acquired 5)
  ∧ (getLock 5 (fun q => q == 5 || q == 7) none = LockAcq.acquired 5) :=
  ⟨(getLock_correct 5 7 (fun q => q == 5 || q == 7)).1,
   (getLock_correct 5 7 (fun q => q == 5 || q == 7)).2.1 (by decide) rfl,
   (getLock_correct 5 9 (fun q => q == 5 || q == 7)).2.2.1 rfl,
   (getLock_correct 5 9 (fun q => q == 5 || q == 7)).2.2.2⟩

/-- Claim C3: `run_tasks` on a non-empty list runs the tasks strictly in
list order; the first task whose error state is non-null halts the loop
with return value 1, so no later task is run; when every task finishes
without error the return value is 0 and every task was run. -/
theorem runTasks_sequential (pre post : List MTask) (t : MTask) :
    ((∀ s ∈ pre, s.finalError = none) → t.finalError ≠ none →
      runTasks (some (pre ++ t :: post)) = (1, (pre ++ [t]).map MTask.name))
  ∧ ((∀ s ∈ t :: post, s.finalError = none) →
      runTasks (some (t :: post)) = (0, (t :: post).map MTask.name)) := by
  constructor
  · intro hpre ht
    have hlen : (pre ++ t :: post).length ≠ 0 := by simp
    simp only [runTasks, if_neg hlen]
    exact runTasksGo_halts pre t post hpre ht
  · intro h
    have hlen : (t :: post).length ≠ 0 := by simp
    simp only [runTasks, if_neg hlen]
    exact runTasksGo_clean (t :: post) h

/-- Witness for C3: on three concrete tasks whose second reports an error,
exactly the first two run and the result is 1; on three clean tasks the
result is 0 and all three run. -/
theorem runTasks_sequential_witness :
    runTasks (some [⟨"t1", none, none⟩, ⟨"t2", none, some "boom"⟩,
                    ⟨"t3", none, none⟩]) = (1, ["t1", "t2"])
  ∧ runTasks (some [⟨"t1", none, none⟩, ⟨"t2", none, none⟩,
                    ⟨"t3", none, none⟩]) = (0, ["t1", "t2", "t3"]) :=
  ⟨(runTasks_sequential [⟨"t1", none, none⟩] [⟨"t3", none, none⟩]
      ⟨"t2", none, some "boom"⟩).1 (by decide) (by decide),
   (runTasks_sequential [] [⟨"t2", none, none⟩, ⟨"t3", none, none⟩]
      ⟨"t1", none, none⟩).2 (by decide)⟩

/-! ### Helper lemmas for run_stages -/

/-- A stage whose lock acquisition succeeds and whose task list builds and
runs with exit code 0. -/
def StageEnv.cleanStage (env : StageEnv) (s : String) : Prop :=
  env.lockAcq s = Except.ok () ∧
  ∃ tl, env.taskList s = Except.ok tl ∧ (runTasks (some tl)).1 = 0

/-- The trace one successfully locked stage contributes to `run_stages`. -/
def stageEvents (env : StageEnv) (s : String) : List REvent :=
  match env.taskList s with
  | Except.ok tl =>
      [REvent.acquired s, REvent.built s] ++
      (runTasks (some tl)).2.map (REvent.ran s) ++
      [REvent.releaseCall (some s)]
  | Except.error _ => [REvent.acquired s, REvent.releaseCall (some s)]

/-- Every event a locked stage contributes carries that stage's name. -/
lemma stageOf_mem_stageEvents (env : StageEnv) (s : String) (e : REvent)
    (he : e ∈ stageEvents env s) : e.stageOf = some s := by
  unfold stageEvents at he
  cases h : env.taskList s with
  | ok tl =>
      rw [h] at he
      rcases List.mem_append.mp he with hx | hx
      · rcases List.mem_append.mp hx with hy | hy
        · simp only [List.mem_cons, List.not_mem_nil, or_false] at hy
          rcases hy with h1 | h1 <;> (subst h1; rfl)
        · obtain ⟨n, _, h1⟩ := List.mem_map.mp hy
          subst h1; rfl
      · simp only [List.mem_singleton] at hx
        subst hx; rfl
  | error m =>
      rw [h] at he
      simp only [List.mem_cons, List.mem_singleton, List.not_mem_nil,
        or_false] at he
      rcases he with h1 | h1 <;> (subst h1; rfl)

/-- One clean stage at the head of the loop: its trace is prepended and the
loop continues, with the lock variable now holding this stage's released
lock object. -/
lemma runStagesLoop_cons_clean (env : StageEnv) (s : String)
    (rest : List String) (lockVar : Option String)
    (h : env.cleanStage s) :
    runStagesLoop env (s :: rest) lockVar =
      ((runStagesLoop env rest (some s)).1,
       stageEvents env s ++ (runStagesLoop env rest (some s)).2) := by
  obtain ⟨hl, tl, htl, hcode⟩ := h
  simp [runStagesLoop, hl, htl, stageEvents, hcode]

/-- A stage whose task run returns a non-zero exit code at the head of the
loop: the lock is released and `run_stages` returns that code; the loop
does not continue. -/
lemma runStagesLoop_cons_fail (env : StageEnv) (s : String)
    (rest : List String) (lockVar : Option String) (tl : List MTask)
    (hl : env.lockAcq s = Except.ok ())
    (htl : env.taskList s = Except.ok tl)
    (hc : (runTasks (some tl)).1 ≠ 0) :
    runStagesLoop env (s :: rest) lockVar =
      (Except.ok (runTasks (some tl)).1, stageEvents env s) := by
  simp [runStagesLoop, hl, htl, hc, stageEvents]

/-- Running the loop on clean stages followed by anything: the clean
prefix contributes its traces in order and the loop continues on the rest
with some lock variable. -/
lemma runStagesLoop_clean_append (env : StageEnv) (pre rest : List String) :
    ∀ lockVar, (∀ s ∈ pre, env.cleanStage s) →
    ∃ lv, runStagesLoop env (pre ++ rest) lockVar =
      ((runStagesLoop env rest lv).1,
       (pre.map (stageEvents env)).flatten ++ (runStagesLoop env rest lv).2) := by
  induction pre with
  | nil => exact fun lv _ => ⟨lv, by simp⟩
  | cons a as ih =>
      intro lv h
      have ha : env.cleanStage a := h a (by simp)
      obtain ⟨lv2, hrec⟩ := ih (some a) (fun s hs => h s (by simp [hs]))
      refine ⟨lv2, ?_⟩
      rw [List.cons_append, runStagesLoop_cons_clean env a (as ++ rest)
        lv ha, hrec]
      simp

/-- Claim C4: `run_stages` processes the comma-split stage names in the
requested order; the first stage whose task run returns a non-zero code
makes `run_stages` return that code, and the trace contains only events of
the preceding clean stages and of the failing stage — no lock, task list or
task of any later requested stage is ever touched. -/
theorem runStages_failfast (env : StageEnv) (lw csv : String)
    (pre : List String) (b : String) (post : List String) (tlb : List MTask)
    (hsplit : splitComma csv = pre ++ b :: post)
    (hpre : ∀ s ∈ pre, env.cleanStage s)
    (hbl : env.lockAcq b = Except.ok ())
    (hbt : env.taskList b = Except.ok tlb)
    (hbc : (runTasks (some tlb)).1 ≠ 0) :
    runStages env (some lw) csv =
      (Except.ok (runTasks (some tlb)).1,
       (pre.map (stageEvents env)).flatten ++ stageEvents env b)
  ∧ ∀ s ∈ post, s ∉ pre → s ≠ b →
      ∀ e ∈ (runStages env (some lw) csv).2, e.stageOf ≠ some s := by
  obtain ⟨lv, hloop⟩ := runStagesLoop_clean_append env pre (b :: post)
    none hpre
  have hmain : runStages env (some lw) csv =
      (Except.ok (runTasks (some tlb)).1,
       (pre.map (stageEvents env)).flatten ++ stageEvents env b) := by
    unfold runStages
    rw [hsplit, hloop, runStagesLoop_cons_fail env b post lv tlb hbl hbt hbc]
  refine ⟨hmain, ?_⟩
  intro s _hs hnpre hnb e he
  rw [hmain] at he
  simp only [List.mem_append] at he
  rcases he with he | he
  · obtain ⟨l, hl, hel⟩ := List.mem_flatten.mp he
    obtain ⟨a, ha, hla⟩ := List.mem_map.mp hl
    subst hla
    rw [stageOf_mem_stageEvents env a e hel]
    intro hcontra
    have haeq : a = s := Option.some_inj.mp hcontra
    exact hnpre (haeq ▸ ha)
  · rw [stageOf_mem_stageEvents env b e he]
    simp [Ne.symm hnb]

/-- A concrete environment for three stages where stage `b` has a task that
reports an error and stages `a` and `c` are clean. -/
def envFailB : StageEnv :=
  { lockAcq := fun _ => Except.ok (),
    taskList := fun s =>
      if s = "b" then Except.ok [⟨"tb", none, some "boom"⟩]
      else if s = "a" then Except.ok [⟨"ta", none, none⟩]
      else Except.ok [⟨"tc", none, none⟩] }

/-- Witness for C4: with stages `a,b,c` and stage `b`'s task erroring,
stage `a` runs fully, stage `b` runs up to the failure and returns 1, and
no event of stage `c` appears. -/
theorem runStages_failfast_witness :
    runStages envFailB (some "w") "a,b,c" =
      (Except.ok 1,
       [REvent.acquired "a", REvent.built "a", REvent.ran "a" "ta",
        REvent.releaseCall (some "a"), REvent.acquired "b",
        REvent.built "b", REvent.ran "b" "tb",
        REvent.releaseCall (some "b")]) := by
  have hpre : ∀ s ∈ ["a"], envFailB.cleanStage s := by
    intro s hs
    simp only [List.mem_singleton] at hs
    subst hs
    exact ⟨rfl, [⟨"ta", none, none⟩], rfl, rfl⟩
  have h := runStages_failfast envFailB "w" "a,b,c" ["a"] "b" ["c"]
    [⟨"tb", none, some "boom"⟩] (by decide) hpre rfl rfl (by decide)
  rw [h.1]
  rfl

/-- A concrete environment where acquiring stage `b`'s lock raises the
contention error and every other stage is clean. -/
def envLockBug : StageEnv :=
  { lockAcq := fun s =>
      if s = "b" then Except.error "celpprunner with pid 7 is running"
      else Except.ok (),
    taskList := fun _ => Except.ok [⟨"t", none, none⟩] }

/-- Claim C5 evidence: when acquiring stage `b`'s lock raises after stage
`a` completed, the `finally` clause of `run_stages` calls `release` on
stage `a`'s already-released lock a second time (the assignment to `lock`
sits inside the `try`), so `a`'s lock sees two release calls though it was
acquired once; on a first-stage acquisition failure the `finally` clause
hits the unbound `lock` variable.  The process still reaches no task of
stage `b` and exits 2 (nonzero). -/
theorem runStages_double_release :
    runStages envLockBug (some "w") "a,b" =
      (Except.error (releaseExc (some "a")),
       [REvent.acquired "a", REvent.built "a", REvent.ran "a" "t",
        REvent.releaseCall (some "a"), REvent.releaseCall (some "a")])
  ∧ (runStages envLockBug (some "w") "a,b").2.count
      (REvent.releaseCall (some "a")) = 2
  ∧ (runStages envLockBug (some "w") "a,b").2.count
      (REvent.acquired "a") = 1
  ∧ mainExit (runStages envLockBug (some "w") "a,b") = 2
  ∧ (runStages envLockBug (some "w") "a,b").2.filter
      (fun e => e.stageOf == some "b") = []
  ∧ runStages envLockBug (some "w") "b" =
      (Except.error (releaseExc none), [REvent.releaseCall none]) := by
  refine ⟨rfl, by decide, by decide, rfl, by decide, rfl⟩

/-- A concrete environment whose single task reports an error. -/
def envTaskError : StageEnv :=
  { lockAcq := fun _ => Except.ok (),
    taskList := fun _ => Except.ok [⟨"t", none, some "boom"⟩] }

/-- A concrete environment whose single task finishes cleanly. -/
def envClean : StageEnv :=
  { lockAcq := fun _ => Except.ok (),
    taskList := fun _ => Except.ok [⟨"t", none, none⟩] }

/-- A concrete environment where building the task list raises. -/
def envRaise : StageEnv :=
  { lockAcq := fun _ => Except.ok (),
    taskList := fun _ => Except.error "uh oh no tasks for bogus stage" }

/-- Claim C6 evidence: `main` exits 0 on success and 2 on an unhandled
exception, but when a task reports an error `run_stages` returns 1 and
`main`, which ignores that return value, still exits 0 — not 1 as claimed
(and as the program's own usage text promises). -/
theorem mainExit_on_task_error :
    mainExit (runStages envClean (some "w") "blast") = 0
  ∧ (runStages envTaskError (some "w") "blast").1 = Except.ok 1
  ∧ mainExit (runStages envTaskError (some "w") "blast") = 0
  ∧ mainExit (runStages envRaise (some "w") "blast") = 2 :=
  ⟨rfl, rfl, rfl, rfl⟩

/-- Counterexample for C7: `run_tasks([])` returns 2, not the 3 the
exit-code table assigns to a null-or-empty task list. -/
theorem runTasks_empty_not_code_three :
    (runTasks (some [])).1 = 2 ∧ (runTasks (some [])).1 ≠ 3 := by decide

/-- Claim C7 as amended: `run_tasks(None)` returns 3 and `run_tasks([])`
returns 2; the two codes are distinct from each other and from 0 (success)
and 1 (task error). -/
theorem runTasks_none_empty_distinct_codes :
    runTasks none = (3, []) ∧ runTasks (some []) = (2, [])
  ∧ (runTasks none).1 ≠ (runTasks (some [])).1
  ∧ (runTasks none).1 ≠ 0 ∧ (runTasks none).1 ≠ 1
  ∧ (runTasks (some [])).1 ≠ 0 ∧ (runTasks (some [])).1 ≠ 1 := by decide

/-- Claim C8: when the `_can_run` flag is not set, `GlideTask.run` returns
without doing anything — in particular it never invokes the external
command executor, whatever the `--glide` argument and directories are. -/
theorem glideRun_refuses_without_flag (glideArg : Option String)
    (sd od : String) :
    glideRun false glideArg sd od = RunAction.skipped
  ∧ ∀ c, glideRun false glideArg sd od ≠ RunAction.invokedExternal c :=
  ⟨rfl, fun _ h => RunAction.noConfusion h⟩

/-- Claim C9: `get_task_list_for_stage` raises on a `None` stage name and
on every stage name outside {import, blast, pdbprep}; each recognized name
yields exactly one task bound to the resolved dataset path; and in the
`run_stages` loop a stage whose task-list construction raises propagates
the error after releasing the lock, before any task runs. -/
theorem getTaskListForStage_registry (path s : String)
    (h1 : s ≠ "import") (h2 : s ≠ "blast") (h3 : s ≠ "pdbprep") :
    getTaskListForStage path none = Except.error "stage_name is None"
  ∧ getTaskListForStage path (some s) =
      Except.error ("uh oh no tasks for " ++ s ++ " stage")
  ∧ getTaskListForStage path (some "import") =
      Except.ok [StageTask.compInchiDownload path]
  ∧ getTaskListForStage path (some "blast") =
      Except.ok [StageTask.blastNFilter path]
  ∧ getTaskListForStage path (some "pdbprep") =
      Except.ok [StageTask.pdbPrep path]
  ∧ ∀ env : StageEnv, ∀ lockVar : Option String, ∀ m : String,
      env.lockAcq s = Except.ok () → env.taskList s = Except.error m →
      runStagesLoop env [s] lockVar =
        (Except.error m, [REvent.acquired s, REvent.releaseCall (some s)]) := by
  refine ⟨rfl, ?_, rfl, rfl, rfl, ?_⟩
  · simp [getTaskListForStage, h1, h2, h3]
  · intro env lockVar m hl ht
    simp [runStagesLoop, hl, ht]

/-- A concrete environment where every task-list construction raises the
factory's unknown-stage error. -/
def envBadStage : StageEnv :=
  { lockAcq := fun _ => Except.ok (),
    taskList := fun s =>
      Except.error ("uh oh no tasks for " ++ s ++ " stage") }

/-- Witness for C9 at the unrecognized stage names `dock` and at `None`:
the factory raises, and in the loop the error propagates with no task
event. -/
theorem getTaskListForStage_registry_witness :
    getTaskListForStage "/data/2016/dataset.week.5" (some "dock") =
      Except.error "uh oh no tasks for dock stage"
  ∧ getTaskListForStage "/data/2016/dataset.week.5" none =
      Except.error "stage_name is None"
  ∧ runStagesLoop envBadStage ["dock"] none =
      (Except.error "uh oh no tasks for dock stage",
       [REvent.acquired "dock", REvent.releaseCall (some "dock")]) := by
  have h := getTaskListForStage_registry "/data/2016/dataset.week.5" "dock"
    (by decide) (by decide) (by decide)
  exact ⟨h.2.1, h.1,
    h.2.2.2.2.2 envBadStage none "uh oh no tasks for dock stage" rfl rfl⟩

/-- Claim C10: when the dataset resolver returns the not-found sentinel,
`run_stages` returns 0 at once: no lock is acquired, no task list is built
and no task is run (empty trace), for every requested stage string, and
the process exits 0. -/
theorem runStages_no_dataset (env : StageEnv) (csv : String) :
    runStages env none csv = (Except.ok 0, [])
  ∧ mainExit (runStages env none csv) = 0 :=
  ⟨rfl, rfl⟩

end D3R
